import Mathlib

/-!
Verification of the crccheck library (src/crccheck) against its specification.

The development shallowly embeds the Python sources:

* `src/crccheck/base.py`: `REFLECT_BIT_ORDER_TABLE`, `reflectbitorder`,
  `CrccheckBase` (`reset`, `final`, `value`, classmethod `calc`);
* `src/crccheck/crc.py`: `CrcBase.process`, `CrcBase.final`, the optimised
  `Crc8Base.process` / `Crc16Base.process` / `Crc32Base.process`, the general
  `Crc` class (`__init__`, instance-method `calc`), and the full catalogue of
  CRC variant classes (`ALLCRCCLASSES`);
* `src/crccheck/checksum.py`: `ChecksumBase.process`, `ChecksumXorBase.process`,
  and the general `Checksum.__init__` width validation.

Python integers are unbounded, so machine arithmetic is modelled with `Nat`;
byte sequences are `List Nat` (in-range inputs carry explicit `< 256` facts
where a claim needs them).  Methods that mutate `self` become functions from
the explicit engine state to a new state; code that can raise is modelled with
`Except String`.
-/

namespace Crccheck

/-- The 256-entry byte bit-reversal table `REFLECT_BIT_ORDER_TABLE` of
src/crccheck/base.py, transcribed verbatim. -/
def REFLECT_BIT_ORDER_TABLE : List Nat := [
  0x00, 0x80, 0x40, 0xC0, 0x20, 0xA0, 0x60, 0xE0,
  0x10, 0x90, 0x50, 0xD0, 0x30, 0xB0, 0x70, 0xF0,
  0x08, 0x88, 0x48, 0xC8, 0x28, 0xA8, 0x68, 0xE8,
  0x18, 0x98, 0x58, 0xD8, 0x38, 0xB8, 0x78, 0xF8,
  0x04, 0x84, 0x44, 0xC4, 0x24, 0xA4, 0x64, 0xE4,
  0x14, 0x94, 0x54, 0xD4, 0x34, 0xB4, 0x74, 0xF4,
  0x0C, 0x8C, 0x4C, 0xCC, 0x2C, 0xAC, 0x6C, 0xEC,
  0x1C, 0x9C, 0x5C, 0xDC, 0x3C, 0xBC, 0x7C, 0xFC,
  0x02, 0x82, 0x42, 0xC2, 0x22, 0xA2, 0x62, 0xE2,
  0x12, 0x92, 0x52, 0xD2, 0x32, 0xB2, 0x72, 0xF2,
  0x0A, 0x8A, 0x4A, 0xCA, 0x2A, 0xAA, 0x6A, 0xEA,
  0x1A, 0x9A, 0x5A, 0xDA, 0x3A, 0xBA, 0x7A, 0xFA,
  0x06, 0x86, 0x46, 0xC6, 0x26, 0xA6, 0x66, 0xE6,
  0x16, 0x96, 0x56, 0xD6, 0x36, 0xB6, 0x76, 0xF6,
  0x0E, 0x8E, 0x4E, 0xCE, 0x2E, 0xAE, 0x6E, 0xEE,
  0x1E, 0x9E, 0x5E, 0xDE, 0x3E, 0xBE, 0x7E, 0xFE,
  0x01, 0x81, 0x41, 0xC1, 0x21, 0xA1, 0x61, 0xE1,
  0x11, 0x91, 0x51, 0xD1, 0x31, 0xB1, 0x71, 0xF1,
  0x09, 0x89, 0x49, 0xC9, 0x29, 0xA9, 0x69, 0xE9,
  0x19, 0x99, 0x59, 0xD9, 0x39, 0xB9, 0x79, 0xF9,
  0x05, 0x85, 0x45, 0xC5, 0x25, 0xA5, 0x65, 0xE5,
  0x15, 0x95, 0x55, 0xD5, 0x35, 0xB5, 0x75, 0xF5,
  0x0D, 0x8D, 0x4D, 0xCD, 0x2D, 0xAD, 0x6D, 0xED,
  0x1D, 0x9D, 0x5D, 0xDD, 0x3D, 0xBD, 0x7D, 0xFD,
  0x03, 0x83, 0x43, 0xC3, 0x23, 0xA3, 0x63, 0xE3,
  0x13, 0x93, 0x53, 0xD3, 0x33, 0xB3, 0x73, 0xF3,
  0x0B, 0x8B, 0x4B, 0xCB, 0x2B, 0xAB, 0x6B, 0xEB,
  0x1B, 0x9B, 0x5B, 0xDB, 0x3B, 0xBB, 0x7B, 0xFB,
  0x07, 0x87, 0x47, 0xC7, 0x27, 0xA7, 0x67, 0xE7,
  0x17, 0x97, 0x57, 0xD7, 0x37, 0xB7, 0x77, 0xF7,
  0x0F, 0x8F, 0x4F, 0xCF, 0x2F, 0xAF, 0x6F, 0xEF,
  0x1F, 0x9F, 0x5F, 0xDF, 0x3F, 0xBF, 0x7F, 0xFF
]

/-- Table lookup `REFLECT_BIT_ORDER_TABLE[byte]`.  Python raises `IndexError`
for an index outside 0..255; the claims only concern byte values, for which
the lookup is in range, so an out-of-range index defaults to 0 here. -/
def reflectByte (b : Nat) : Nat := REFLECT_BIT_ORDER_TABLE.getD b 0

/-- Fuelled computation of the binary digits of `v`, least-significant first
(empty for `v = 0`).  `bin(v)[2:]` in Python is the reverse of this list.  The
fuel argument (first) only serves structural termination; `lsbDigits` passes
`v` itself as fuel, which always suffices since `v` halves at each step. -/
def lsbDigitsAux : Nat → Nat → List Bool
  | _, 0 => []
  | 0, _ + 1 => []
  | fuel + 1, v + 1 => ((v + 1) % 2 == 1) :: lsbDigitsAux fuel ((v + 1) / 2)

/-- Binary digits of `v`, least-significant first; `[]` for `v = 0`. -/
def lsbDigits (v : Nat) : List Bool := lsbDigitsAux v v

/-- The character list of Python `bin(value)[2:]` as booleans, most-significant
digit first.  `bin(0)[2:]` is the one-character string `"0"`. -/
def binDigits (v : Nat) : List Bool :=
  if v = 0 then [false] else (lsbDigits v).reverse

/-- Value of a most-significant-first digit string, as computed by Python
`int(s, 2)`. -/
def ofBitsMSB (l : List Bool) : Nat :=
  l.foldl (fun acc b => 2 * acc + (if b then 1 else 0)) 0

/-- The function `reflectbitorder(width, value)` of src/crccheck/base.py:

    binstr = ("0" * width + bin(value)[2:])[-width:]
    return int(binstr[::-1], 2)

For `width > 0` the slice `[-width:]` keeps the last `width` characters (the
low `width` bits, zero padded).  For `width = 0` Python evaluates `[-0:]` as
`[0:]`, i.e. the WHOLE string, so the entire binary representation of `value`
is reversed; that case is reproduced faithfully here. -/
def reflectbitorder (width value : Nat) : Nat :=
  let padded := List.replicate width false ++ binDigits value
  let sliced := if width = 0 then padded else padded.drop (padded.length - width)
  ofBitsMSB sliced.reverse

/-- Specification-side helper: the low `w` bits of `v`, least-significant
first, always of length `w` (zero padded at the top). -/
def lsbBitsW : Nat → Nat → List Bool
  | 0, _ => []
  | w + 1, v => (v % 2 == 1) :: lsbBitsW w (v / 2)

/-! ## CRC engine (src/crccheck/crc.py) -/

/-- The inner `for i in range(0, 8)` loop body of every `process` method:
one polynomial-division step, repeated `n` times (`n = 8` at every use).
`if crc & highbit:` tests Python truthiness, i.e. nonzero. -/
def crcShiftLoop (highbit poly : Nat) : Nat → Nat → Nat
  | 0, crc => crc
  | n + 1, crc =>
      crcShiftLoop highbit poly n
        (if crc &&& highbit != 0 then (crc <<< 1) ^^^ poly else crc <<< 1)

/-- The `for byte in data` loop of `CrcBase.process`: per byte, optional input
reflection, XOR into the top of the working register, eight shift steps, then
masking to the working width. -/
def crcLoop (mask highbit poly shift : Nat) (reflect : Bool) :
    List Nat → Nat → Nat
  | [], crc => crc
  | b :: rest, crc =>
      let byte := if reflect then reflectByte b else b
      let crc1 := crc ^^^ (byte <<< shift)
      let crc2 := crcShiftLoop highbit poly 8 crc1
      crcLoop mask highbit poly shift reflect rest (crc2 &&& mask)

/-- The bit-serial engine `CrcBase.process` of src/crccheck/crc.py.  The
source first sets `highbit = 1 << (width-1)`, `mask = (1 << width) - 1`,
`shift = width - 8`; when `diff8 = 8 - width > 0` (i.e. `width < 8`) it
enlarges the register and polynomial by `diff8` bits and works with an 8-bit
mask, undoing the enlargement by a final right shift after all bytes. -/
def CrcBase.process (width poly : Nat) (reflect_input : Bool)
    (value : Nat) (data : List Nat) : Nat :=
  if width < 8 then
    let diff8 := 8 - width
    (crcLoop 0xFF 0x80 (poly <<< diff8) 0 reflect_input data (value <<< diff8)) >>> diff8
  else
    crcLoop ((1 <<< width) - 1) (1 <<< (width - 1)) poly (width - 8)
      reflect_input data value

/-- The finalisation `CrcBase.final`: copy the register, reflect the full
width if `reflect_output`, XOR with `xor_output`.  The method never assigns to
`self._value`. -/
def CrcBase.final (width : Nat) (reflect_output : Bool) (xor_output : Nat)
    (value : Nat) : Nat :=
  let crc := value
  let crc := if reflect_output then reflectbitorder width crc else crc
  crc ^^^ xor_output

/-- The `for byte in data` loop of the optimised `Crc8Base.process`. -/
def crc8Loop (poly : Nat) (reflect : Bool) : List Nat → Nat → Nat
  | [], crc => crc
  | b :: rest, crc =>
      let byte := if reflect then reflectByte b else b
      let crc1 := crc ^^^ byte
      let crc2 := crcShiftLoop 0x80 poly 8 crc1
      crc8Loop poly reflect rest (crc2 &&& 0xFF)

/-- The optimised fast-path `Crc8Base.process` of src/crccheck/crc.py. -/
def Crc8Base.process (poly : Nat) (reflect_input : Bool)
    (value : Nat) (data : List Nat) : Nat :=
  crc8Loop poly reflect_input data value

/-- The `for byte in data` loop of the optimised `Crc16Base.process`. -/
def crc16Loop (poly : Nat) (reflect : Bool) : List Nat → Nat → Nat
  | [], crc => crc
  | b :: rest, crc =>
      let byte := if reflect then reflectByte b else b
      let crc1 := crc ^^^ (byte <<< 8)
      let crc2 := crcShiftLoop 0x8000 poly 8 crc1
      crc16Loop poly reflect rest (crc2 &&& 0xFFFF)

/-- The optimised fast-path `Crc16Base.process` of src/crccheck/crc.py. -/
def Crc16Base.process (poly : Nat) (reflect_input : Bool)
    (value : Nat) (data : List Nat) : Nat :=
  crc16Loop poly reflect_input data value

/-- The `for byte in data` loop of the optimised `Crc32Base.process`. -/
def crc32Loop (poly : Nat) (reflect : Bool) : List Nat → Nat → Nat
  | [], crc => crc
  | b :: rest, crc =>
      let byte := if reflect then reflectByte b else b
      let crc1 := crc ^^^ (byte <<< 24)
      let crc2 := crcShiftLoop 0x80000000 poly 8 crc1
      crc32Loop poly reflect rest (crc2 &&& 0xFFFFFFFF)

/-- The optimised fast-path `Crc32Base.process` of src/crccheck/crc.py. -/
def Crc32Base.process (poly : Nat) (reflect_input : Bool)
    (value : Nat) (data : List Nat) : Nat :=
  crc32Loop poly reflect_input data value

/-! ## CRC variant parameters and the catalogue -/

/-- The defining class attributes of a CRC variant class: `_width`, `_poly`,
`_initvalue`, `_reflect_input`, `_reflect_output`, `_xor_output` and the
registered `_check_result`. -/
structure CrcParams where
  width : Nat
  poly : Nat
  initvalue : Nat
  reflect_input : Bool
  reflect_output : Bool
  xor_output : Nat
  check_result : Nat
deriving DecidableEq

/-- Dispatch of `process` according to the class hierarchy in
src/crccheck/crc.py: every catalogued class of width 8, 16 or 32 derives from
`Crc8Base`, `Crc16Base` or `Crc32Base` respectively and therefore uses the
optimised `process`; every other catalogued class derives from `CrcBase` and
uses the bit-serial `process`. -/
def classProcess (p : CrcParams) (value : Nat) (data : List Nat) : Nat :=
  if p.width = 8 then Crc8Base.process p.poly p.reflect_input value data
  else if p.width = 16 then Crc16Base.process p.poly p.reflect_input value data
  else if p.width = 32 then Crc32Base.process p.poly p.reflect_input value data
  else CrcBase.process p.width p.poly p.reflect_input value data

/-- The classmethod `CrccheckBase.calc` of src/crccheck/base.py:
`inst = cls(initvalue); inst.process(data); return inst.final()`.
`cls(None)` starts from the class default `_initvalue`; `cls(v)` starts from
`v` (see `CrccheckBase.__init__`). -/
def CrccheckBase.calc (p : CrcParams) (data : List Nat)
    (initvalue : Option Nat) : Nat :=
  let start := match initvalue with
    | none => p.initvalue
    | some v => v
  CrcBase.final p.width p.reflect_output p.xor_output
    (classProcess p start data)

/-- The fixed check input `b"123456789"` (`CrcBase._check_data`). -/
def checkData : List Nat := [0x31, 0x32, 0x33, 0x34, 0x35, 0x36, 0x37, 0x38, 0x39]

/-- Parameters of class `Crc3Rohc` (CRC-3/ROHC) from src/crccheck/crc.py. -/
def Crc3Rohc : CrcParams :=
  CrcParams.mk 3 0x3 0x7 true true 0x0 0x6

/-- Parameters of class `Crc8Smbus` (CRC-8/SMBUS) from src/crccheck/crc.py. -/
def Crc8Smbus : CrcParams :=
  CrcParams.mk 8 0x07 0x00 false false 0x00 0xf4

/-- Parameters of class `Crc16Xmodem` (CRC-16/XMODEM) from src/crccheck/crc.py. -/
def Crc16Xmodem : CrcParams :=
  CrcParams.mk 16 0x1021 0x0000 false false 0x0000 0x31c3

/-- Parameters of class `Crc32IsoHdlc` (CRC-32/ISO-HDLC) from src/crccheck/crc.py. -/
def Crc32IsoHdlc : CrcParams :=
  CrcParams.mk 32 0x04c11db7 0xffffffff true true 0xffffffff 0xcbf43926

/-- Parameters of class `Crc82Darc` (CRC-82/DARC) from src/crccheck/crc.py. -/
def Crc82Darc : CrcParams :=
  CrcParams.mk 82 0x0308c0111011401440411 0x000000000000000000000 true true 0x000000000000000000000 0x09ea83f625023801fd612

/-- The `ALLCRCCLASSES` tuple of src/crccheck/crc.py: the parameter record of every
catalogued CRC variant class, in source order. -/
def ALLCRCCLASSES : List CrcParams := [
  -- Crc3Gsm  (CRC-3/GSM)
  CrcParams.mk 3 0x3 0x0 false false 0x7 0x4,
  -- defined above: Crc3Rohc  (CRC-3/ROHC)
  Crc3Rohc,
  -- Crc4G704  (CRC-4/G-704)
  CrcParams.mk 4 0x3 0x0 true true 0x0 0x7,
  -- Crc4Interlaken  (CRC-4/INTERLAKEN)
  CrcParams.mk 4 0x3 0xf false false 0xf 0xb,
  -- Crc5EpcC1G2  (CRC-5/EPC-C1G2)
  CrcParams.mk 5 0x09 0x09 false false 0x00 0x00,
  -- Crc5G704  (CRC-5/G-704)
  CrcParams.mk 5 0x15 0x00 true true 0x00 0x07,
  -- Crc5Usb  (CRC-5/USB)
  CrcParams.mk 5 0x05 0x1f true true 0x1f 0x19,
  -- Crc6Cdma2000A  (CRC-6/CDMA2000-A)
  CrcParams.mk 6 0x27 0x3f false false 0x00 0x0d,
  -- Crc6Cdma2000B  (CRC-6/CDMA2000-B)
  CrcParams.mk 6 0x07 0x3f false false 0x00 0x3b,
  -- Crc6Darc  (CRC-6/DARC)
  CrcParams.mk 6 0x19 0x00 true true 0x00 0x26,
  -- Crc6G704  (CRC-6/G-704)
  CrcParams.mk 6 0x03 0x00 true true 0x00 0x06,
  -- Crc6Gsm  (CRC-6/GSM)
  CrcParams.mk 6 0x2f 0x00 false false 0x3f 0x13,
  -- Crc7Mmc  (CRC-7/MMC)
  CrcParams.mk 7 0x09 0x00 false false 0x00 0x75,
  -- Crc7Rohc  (CRC-7/ROHC)
  CrcParams.mk 7 0x4f 0x7f true true 0x00 0x53,
  -- Crc7Umts  (CRC-7/UMTS)
  CrcParams.mk 7 0x45 0x00 false false 0x00 0x61,
  -- Crc8Autosar  (CRC-8/AUTOSAR)
  CrcParams.mk 8 0x2f 0xff false false 0xff 0xdf,
  -- Crc8Bluetooth  (CRC-8/BLUETOOTH)
  CrcParams.mk 8 0xa7 0x00 true true 0x00 0x26,
  -- Crc8Cdma2000  (CRC-8/CDMA2000)
  CrcParams.mk 8 0x9b 0xff false false 0x00 0xda,
  -- Crc8Darc  (CRC-8/DARC)
  CrcParams.mk 8 0x39 0x00 true true 0x00 0x15,
  -- Crc8DvbS2  (CRC-8/DVB-S2)
  CrcParams.mk 8 0xd5 0x00 false false 0x00 0xbc,
  -- Crc8GsmA  (CRC-8/GSM-A)
  CrcParams.mk 8 0x1d 0x00 false false 0x00 0x37,
  -- Crc8GsmB  (CRC-8/GSM-B)
  CrcParams.mk 8 0x49 0x00 false false 0xff 0x94,
  -- Crc8Hitag  (CRC-8/HITAG)
  CrcParams.mk 8 0x1d 0xff false false 0x00 0xb4,
  -- Crc8I4321  (CRC-8/I-432-1)
  CrcParams.mk 8 0x07 0x00 false false 0x55 0xa1,
  -- Crc8ICode  (CRC-8/I-CODE)
  CrcParams.mk 8 0x1d 0xfd false false 0x00 0x7e,
  -- Crc8Lte  (CRC-8/LTE)
  CrcParams.mk 8 0x9b 0x00 false false 0x00 0xea,
  -- Crc8MaximDow  (CRC-8/MAXIM-DOW)
  CrcParams.mk 8 0x31 0x00 true true 0x00 0xa1,
  -- Crc8MifareMad  (CRC-8/MIFARE-MAD)
  CrcParams.mk 8 0x1d 0xc7 false false 0x00 0x99,
  -- Crc8Nrsc5  (CRC-8/NRSC-5)
  CrcParams.mk 8 0x31 0xff false false 0x00 0xf7,
  -- Crc8Opensafety  (CRC-8/OPENSAFETY)
  CrcParams.mk 8 0x2f 0x00 false false 0x00 0x3e,
  -- Crc8Rohc  (CRC-8/ROHC)
  CrcParams.mk 8 0x07 0xff true true 0x00 0xd0,
  -- Crc8SaeJ1850  (CRC-8/SAE-J1850)
  CrcParams.mk 8 0x1d 0xff false false 0xff 0x4b,
  -- defined above: Crc8Smbus  (CRC-8/SMBUS)
  Crc8Smbus,
  -- Crc8Tech3250  (CRC-8/TECH-3250)
  CrcParams.mk 8 0x1d 0xff true true 0x00 0x97,
  -- Crc8Wcdma  (CRC-8/WCDMA)
  CrcParams.mk 8 0x9b 0x00 true true 0x00 0x25,
  -- Crc10Atm  (CRC-10/ATM)
  CrcParams.mk 10 0x233 0x000 false false 0x000 0x199,
  -- Crc10Cdma2000  (CRC-10/CDMA2000)
  CrcParams.mk 10 0x3d9 0x3ff false false 0x000 0x233,
  -- Crc10Gsm  (CRC-10/GSM)
  CrcParams.mk 10 0x175 0x000 false false 0x3ff 0x12a,
  -- Crc11Flexray  (CRC-11/FLEXRAY)
  CrcParams.mk 11 0x385 0x01a false false 0x000 0x5a3,
  -- Crc11Umts  (CRC-11/UMTS)
  CrcParams.mk 11 0x307 0x000 false false 0x000 0x061,
  -- Crc12Cdma2000  (CRC-12/CDMA2000)
  CrcParams.mk 12 0xf13 0xfff false false 0x000 0xd4d,
  -- Crc12Dect  (CRC-12/DECT)
  CrcParams.mk 12 0x80f 0x000 false false 0x000 0xf5b,
  -- Crc12Gsm  (CRC-12/GSM)
  CrcParams.mk 12 0xd31 0x000 false false 0xfff 0xb34,
  -- Crc12Umts  (CRC-12/UMTS)
  CrcParams.mk 12 0x80f 0x000 false true 0x000 0xdaf,
  -- Crc13Bbc  (CRC-13/BBC)
  CrcParams.mk 13 0x1cf5 0x0000 false false 0x0000 0x04fa,
  -- Crc14Darc  (CRC-14/DARC)
  CrcParams.mk 14 0x0805 0x0000 true true 0x0000 0x082d,
  -- Crc14Gsm  (CRC-14/GSM)
  CrcParams.mk 14 0x202d 0x0000 false false 0x3fff 0x30ae,
  -- Crc15Can  (CRC-15/CAN)
  CrcParams.mk 15 0x4599 0x0000 false false 0x0000 0x059e,
  -- Crc15Mpt1327  (CRC-15/MPT1327)
  CrcParams.mk 15 0x6815 0x0000 false false 0x0001 0x2566,
  -- Crc16Arc  (CRC-16/ARC)
  CrcParams.mk 16 0x8005 0x0000 true true 0x0000 0xbb3d,
  -- Crc16Cdma2000  (CRC-16/CDMA2000)
  CrcParams.mk 16 0xc867 0xffff false false 0x0000 0x4c06,
  -- Crc16Cms  (CRC-16/CMS)
  CrcParams.mk 16 0x8005 0xffff false false 0x0000 0xaee7,
  -- Crc16Dds110  (CRC-16/DDS-110)
  CrcParams.mk 16 0x8005 0x800d false false 0x0000 0x9ecf,
  -- Crc16DectR  (CRC-16/DECT-R)
  CrcParams.mk 16 0x0589 0x0000 false false 0x0001 0x007e,
  -- Crc16DectX  (CRC-16/DECT-X)
  CrcParams.mk 16 0x0589 0x0000 false false 0x0000 0x007f,
  -- Crc16Dnp  (CRC-16/DNP)
  CrcParams.mk 16 0x3d65 0x0000 true true 0xffff 0xea82,
  -- Crc16En13757  (CRC-16/EN-13757)
  CrcParams.mk 16 0x3d65 0x0000 false false 0xffff 0xc2b7,
  -- Crc16Genibus  (CRC-16/GENIBUS)
  CrcParams.mk 16 0x1021 0xffff false false 0xffff 0xd64e,
  -- Crc16Gsm  (CRC-16/GSM)
  CrcParams.mk 16 0x1021 0x0000 false false 0xffff 0xce3c,
  -- Crc16Ibm3740  (CRC-16/IBM-3740)
  CrcParams.mk 16 0x1021 0xffff false false 0x0000 0x29b1,
  -- Crc16IbmSdlc  (CRC-16/IBM-SDLC)
  CrcParams.mk 16 0x1021 0xffff true true 0xffff 0x906e,
  -- Crc16IsoIec144433A  (CRC-16/ISO-IEC-14443-3-A)
  CrcParams.mk 16 0x1021 0xc6c6 true true 0x0000 0xbf05,
  -- Crc16Kermit  (CRC-16/KERMIT)
  CrcParams.mk 16 0x1021 0x0000 true true 0x0000 0x2189,
  -- Crc16Lj1200  (CRC-16/LJ1200)
  CrcParams.mk 16 0x6f63 0x0000 false false 0x0000 0xbdf4,
  -- Crc16M17  (CRC-16/M17)
  CrcParams.mk 16 0x5935 0xffff false false 0x0000 0x772b,
  -- Crc16MaximDow  (CRC-16/MAXIM-DOW)
  CrcParams.mk 16 0x8005 0x0000 true true 0xffff 0x44c2,
  -- Crc16Mcrf4Xx  (CRC-16/MCRF4XX)
  CrcParams.mk 16 0x1021 0xffff true true 0x0000 0x6f91,
  -- Crc16Modbus  (CRC-16/MODBUS)
  CrcParams.mk 16 0x8005 0xffff true true 0x0000 0x4b37,
  -- Crc16Nrsc5  (CRC-16/NRSC-5)
  CrcParams.mk 16 0x080b 0xffff true true 0x0000 0xa066,
  -- Crc16OpensafetyA  (CRC-16/OPENSAFETY-A)
  CrcParams.mk 16 0x5935 0x0000 false false 0x0000 0x5d38,
  -- Crc16OpensafetyB  (CRC-16/OPENSAFETY-B)
  CrcParams.mk 16 0x755b 0x0000 false false 0x0000 0x20fe,
  -- Crc16Profibus  (CRC-16/PROFIBUS)
  CrcParams.mk 16 0x1dcf 0xffff false false 0xffff 0xa819,
  -- Crc16Riello  (CRC-16/RIELLO)
  CrcParams.mk 16 0x1021 0xb2aa true true 0x0000 0x63d0,
  -- Crc16SpiFujitsu  (CRC-16/SPI-FUJITSU)
  CrcParams.mk 16 0x1021 0x1d0f false false 0x0000 0xe5cc,
  -- Crc16T10Dif  (CRC-16/T10-DIF)
  CrcParams.mk 16 0x8bb7 0x0000 false false 0x0000 0xd0db,
  -- Crc16Teledisk  (CRC-16/TELEDISK)
  CrcParams.mk 16 0xa097 0x0000 false false 0x0000 0x0fb3,
  -- Crc16Tms37157  (CRC-16/TMS37157)
  CrcParams.mk 16 0x1021 0x89ec true true 0x0000 0x26b1,
  -- Crc16Umts  (CRC-16/UMTS)
  CrcParams.mk 16 0x8005 0x0000 false false 0x0000 0xfee8,
  -- Crc16Usb  (CRC-16/USB)
  CrcParams.mk 16 0x8005 0xffff true true 0xffff 0xb4c8,
  -- defined above: Crc16Xmodem  (CRC-16/XMODEM)
  Crc16Xmodem,
  -- Crc17CanFd  (CRC-17/CAN-FD)
  CrcParams.mk 17 0x1685b 0x00000 false false 0x00000 0x04f03,
  -- Crc21CanFd  (CRC-21/CAN-FD)
  CrcParams.mk 21 0x102899 0x000000 false false 0x000000 0x0ed841,
  -- Crc24Ble  (CRC-24/BLE)
  CrcParams.mk 24 0x00065b 0x555555 true true 0x000000 0xc25a56,
  -- Crc24FlexrayA  (CRC-24/FLEXRAY-A)
  CrcParams.mk 24 0x5d6dcb 0xfedcba false false 0x000000 0x7979bd,
  -- Crc24FlexrayB  (CRC-24/FLEXRAY-B)
  CrcParams.mk 24 0x5d6dcb 0xabcdef false false 0x000000 0x1f23b8,
  -- Crc24Interlaken  (CRC-24/INTERLAKEN)
  CrcParams.mk 24 0x328b63 0xffffff false false 0xffffff 0xb4f3e6,
  -- Crc24LteA  (CRC-24/LTE-A)
  CrcParams.mk 24 0x864cfb 0x000000 false false 0x000000 0xcde703,
  -- Crc24LteB  (CRC-24/LTE-B)
  CrcParams.mk 24 0x800063 0x000000 false false 0x000000 0x23ef52,
  -- Crc24Openpgp  (CRC-24/OPENPGP)
  CrcParams.mk 24 0x864cfb 0xb704ce false false 0x000000 0x21cf02,
  -- Crc24Os9  (CRC-24/OS-9)
  CrcParams.mk 24 0x800063 0xffffff false false 0xffffff 0x200fa5,
  -- Crc30Cdma  (CRC-30/CDMA)
  CrcParams.mk 30 0x2030b9c7 0x3fffffff false false 0x3fffffff 0x04c34abf,
  -- Crc31Philips  (CRC-31/PHILIPS)
  CrcParams.mk 31 0x04c11db7 0x7fffffff false false 0x7fffffff 0x0ce9e46c,
  -- Crc32Aixm  (CRC-32/AIXM)
  CrcParams.mk 32 0x814141ab 0x00000000 false false 0x00000000 0x3010bf7f,
  -- Crc32Autosar  (CRC-32/AUTOSAR)
  CrcParams.mk 32 0xf4acfb13 0xffffffff true true 0xffffffff 0x1697d06a,
  -- Crc32Base91D  (CRC-32/BASE91-D)
  CrcParams.mk 32 0xa833982b 0xffffffff true true 0xffffffff 0x87315576,
  -- Crc32Bzip2  (CRC-32/BZIP2)
  CrcParams.mk 32 0x04c11db7 0xffffffff false false 0xffffffff 0xfc891918,
  -- Crc32CdRomEdc  (CRC-32/CD-ROM-EDC)
  CrcParams.mk 32 0x8001801b 0x00000000 true true 0x00000000 0x6ec2edc4,
  -- Crc32Cksum  (CRC-32/CKSUM)
  CrcParams.mk 32 0x04c11db7 0x00000000 false false 0xffffffff 0x765e7680,
  -- Crc32Iscsi  (CRC-32/ISCSI)
  CrcParams.mk 32 0x1edc6f41 0xffffffff true true 0xffffffff 0xe3069283,
  -- defined above: Crc32IsoHdlc  (CRC-32/ISO-HDLC)
  Crc32IsoHdlc,
  -- Crc32Jamcrc  (CRC-32/JAMCRC)
  CrcParams.mk 32 0x04c11db7 0xffffffff true true 0x00000000 0x340bc6d9,
  -- Crc32Mef  (CRC-32/MEF)
  CrcParams.mk 32 0x741b8cd7 0xffffffff true true 0x00000000 0xd2c22f51,
  -- Crc32Mpeg2  (CRC-32/MPEG-2)
  CrcParams.mk 32 0x04c11db7 0xffffffff false false 0x00000000 0x0376e6e7,
  -- Crc32Xfer  (CRC-32/XFER)
  CrcParams.mk 32 0x000000af 0x00000000 false false 0x00000000 0xbd0be338,
  -- Crc40Gsm  (CRC-40/GSM)
  CrcParams.mk 40 0x0004820009 0x0000000000 false false 0xffffffffff 0xd4164fc646,
  -- Crc64Ecma182  (CRC-64/ECMA-182)
  CrcParams.mk 64 0x42f0e1eba9ea3693 0x0000000000000000 false false 0x0000000000000000 0x6c40df5f0b497347,
  -- Crc64GoIso  (CRC-64/GO-ISO)
  CrcParams.mk 64 0x000000000000001b 0xffffffffffffffff true true 0xffffffffffffffff 0xb90956c775a41001,
  -- Crc64Ms  (CRC-64/MS)
  CrcParams.mk 64 0x259c84cba6426349 0xffffffffffffffff true true 0x0000000000000000 0x75d4b74f024eceea,
  -- Crc64Nvme  (CRC-64/NVME)
  CrcParams.mk 64 0xad93d23594c93659 0xffffffffffffffff true true 0xffffffffffffffff 0xae8b14860a799888,
  -- Crc64Redis  (CRC-64/REDIS)
  CrcParams.mk 64 0xad93d23594c935a9 0x0000000000000000 true true 0x0000000000000000 0xe9c6d914c4b8d9ca,
  -- Crc64We  (CRC-64/WE)
  CrcParams.mk 64 0x42f0e1eba9ea3693 0xffffffffffffffff false false 0xffffffffffffffff 0x62ec59e3f1a4f00a,
  -- Crc64Xz  (CRC-64/XZ)
  CrcParams.mk 64 0x42f0e1eba9ea3693 0xffffffffffffffff true true 0xffffffffffffffff 0x995dc9bbdf1939fa,
  -- defined above: Crc82Darc  (CRC-82/DARC)
  Crc82Darc
]

/-! ## Checksum engine (src/crccheck/checksum.py) -/

/-- The loop-local variables of `ChecksumBase.process` and
`ChecksumXorBase.process`: `dataword` and `n` start at 0 on every call;
`value` is read from `self._value` and written back at the end. -/
structure CkLoopState where
  dataword : Nat
  n : Nat
  value : Nat

/-- One iteration of the `for byte in data` loop of `ChecksumBase.process`:
shift the byte into `dataword` according to the byte order; once `n` reaches
`width`, fold the complete word into the accumulator by masked addition and
reset `dataword` and `n`. -/
def ckStep (bigendian : Bool) (width mask : Nat) (s : CkLoopState)
    (byte : Nat) : CkLoopState :=
  let dataword := if bigendian then (s.dataword <<< 8) ||| byte
                  else s.dataword ||| (byte <<< s.n)
  let n := s.n + 8
  if n = width then CkLoopState.mk 0 0 (mask &&& (s.value + dataword))
  else CkLoopState.mk dataword n s.value

/-- The additive `ChecksumBase.process` of src/crccheck/checksum.py.  Only
`value` survives the call; a trailing incomplete word in `dataword` is
dropped when the loop ends. -/
def ChecksumBase.process (width mask : Nat) (bigendian : Bool)
    (value : Nat) (data : List Nat) : Nat :=
  (data.foldl (ckStep bigendian width mask) (CkLoopState.mk 0 0 value)).value

/-- One iteration of the `for byte in data` loop of `ChecksumXorBase.process`:
identical to `ckStep` except that a complete word is folded in by masked XOR
instead of masked addition. -/
def ckXorStep (bigendian : Bool) (width mask : Nat) (s : CkLoopState)
    (byte : Nat) : CkLoopState :=
  let dataword := if bigendian then (s.dataword <<< 8) ||| byte
                  else s.dataword ||| (byte <<< s.n)
  let n := s.n + 8
  if n = width then CkLoopState.mk 0 0 (mask &&& (s.value ^^^ dataword))
  else CkLoopState.mk dataword n s.value

/-- The XOR `ChecksumXorBase.process` of src/crccheck/checksum.py. -/
def ChecksumXorBase.process (width mask : Nat) (bigendian : Bool)
    (value : Nat) (data : List Nat) : Nat :=
  (data.foldl (ckXorStep bigendian width mask) (CkLoopState.mk 0 0 value)).value

/-- The classmethod `calc` applied to the `Checksum32` class: width 32,
mask `0xFFFFFFFF`, default byte order `big`, default initial value 0. -/
def Checksum32.calc (data : List Nat) : Nat :=
  ChecksumBase.process 32 0xFFFFFFFF true 0 data

/-! ## Engine construction and whole-engine operations -/

/-- Instance state of a general `Crc` engine: the parameters fixed at
construction plus the mutable register `self._value`. -/
structure CrcState where
  params : CrcParams
  value : Nat

/-- The constructor `Crc.__init__` of src/crccheck/crc.py (lines 254-264): it
stores `width`, `poly`, `initvalue`, `reflect_input`, `reflect_output`,
`xor_output` and `check_result` unchanged and sets the register to
`initvalue`.  The body contains no validation and no raise statement, so the
`Except` result (modelling Python exception raising) is always `ok`. -/
def Crc.initE (width poly initvalue : Nat)
    (reflect_input reflect_output : Bool) (xor_output check_result : Nat) :
    Except String CrcState :=
  Except.ok (CrcState.mk
    (CrcParams.mk width poly initvalue reflect_input reflect_output
      xor_output check_result)
    initvalue)

/-- Instance state of a general `Checksum` engine. -/
structure ChecksumState where
  width : Nat
  mask : Nat
  bigendian : Bool
  value : Nat

/-- The constructor `Checksum.__init__` of src/crccheck/checksum.py (lines
227-233): raises `ValueError` unless the width is positive and a multiple of
8; otherwise stores the width and the mask `(1 << width) - 1`. -/
def Checksum.initE (width initvalue : Nat) (bigendian : Bool) :
    Except String ChecksumState :=
  if width ≤ 0 ∨ width % 8 ≠ 0 then
    Except.error "width must be postive and a multiple of 8"
  else
    Except.ok (ChecksumState.mk width ((1 <<< width) - 1) bigendian initvalue)

/-- The instance method `Crc.calc` of src/crccheck/crc.py (lines 266-278):
`self.reset(); self.process(data); return self.final()`.  The `reset()` call
sets the register to the stored class/instance `initvalue`; the method's
`initvalue` parameter is never used by the body. -/
def Crc.calc (s : CrcState) (data : List Nat) (initvalue : Option Nat) : Nat :=
  let s1 := CrcState.mk s.params s.params.initvalue
  let v := CrcBase.process s1.params.width s1.params.poly
    s1.params.reflect_input s1.value data
  CrcBase.final s1.params.width s1.params.reflect_output
    s1.params.xor_output v

/-- Whole-engine view of `CrcBase.process`: mutates only the register. -/
def CrcEngine.processOp (data : List Nat) (s : CrcState) : CrcState :=
  CrcState.mk s.params
    (CrcBase.process s.params.width s.params.poly s.params.reflect_input
      s.value data)

/-- Whole-engine view of `CrcBase.final`: the method reads `self._value` into
a local, computes the reflected/XORed result and returns it; it assigns no
attribute, so the engine state after the call is the engine state before. -/
def CrcEngine.finalOp (s : CrcState) : Nat × CrcState :=
  (CrcBase.final s.params.width s.params.reflect_output s.params.xor_output
    s.value, s)

/-- Whole-engine view of the additive `ChecksumBase.process`. -/
def ChecksumEngine.processOp (data : List Nat) (s : ChecksumState) :
    ChecksumState :=
  ChecksumState.mk s.width s.mask s.bigendian
    (ChecksumBase.process s.width s.mask s.bigendian s.value data)

/-- Whole-engine view of `CrccheckBase.final` (src/crccheck/base.py), used by
the checksum classes: it returns `self._value` and assigns nothing. -/
def ChecksumEngine.finalOp (s : ChecksumState) : Nat × ChecksumState :=
  (s.value, s)

/-! ## Theorems -/

set_option maxRecDepth 100000

/-- Helper: the loop of `Crc8Base.process` coincides with the loop of
`CrcBase.process` instantiated at an 8-bit working register. -/
theorem crc8Loop_eq_crcLoop (poly : Nat) (r : Bool) :
    ∀ (data : List Nat) (crc : Nat),
      crc8Loop poly r data crc = crcLoop 0xFF 0x80 poly 0 r data crc := by
  intro data
  induction data with
  | nil => intro crc; rfl
  | cons b rest ih =>
      intro crc
      simp only [crc8Loop, crcLoop, Nat.shiftLeft_zero]
      exact ih _

/-- Helper: the loop of `Crc16Base.process` coincides with the loop of
`CrcBase.process` instantiated at a 16-bit working register. -/
theorem crc16Loop_eq_crcLoop (poly : Nat) (r : Bool) :
    ∀ (data : List Nat) (crc : Nat),
      crc16Loop poly r data crc = crcLoop 0xFFFF 0x8000 poly 8 r data crc := by
  intro data
  induction data with
  | nil => intro crc; rfl
  | cons b rest ih =>
      intro crc
      simp only [crc16Loop, crcLoop]
      exact ih _

/-- Helper: the loop of `Crc32Base.process` coincides with the loop of
`CrcBase.process` instantiated at a 32-bit working register. -/
theorem crc32Loop_eq_crcLoop (poly : Nat) (r : Bool) :
    ∀ (data : List Nat) (crc : Nat),
      crc32Loop poly r data crc = crcLoop 0xFFFFFFFF 0x80000000 poly 24 r data crc := by
  intro data
  induction data with
  | nil => intro crc; rfl
  | cons b rest ih =>
      intro crc
      simp only [crc32Loop, crcLoop]
      exact ih _

/-- C1: for every catalogued CRC variant class, `calc` over the ASCII bytes
of "123456789" (default construction, process, final) returns exactly the
registered check value; in particular CRC-32/ISO-HDLC gives 0xCBF43926,
CRC-16/XMODEM gives 0x31C3, CRC-8/SMBUS gives 0xF4, CRC-3/ROHC gives 0x6 and
CRC-82/DARC gives its catalogued 82-bit check value. -/
theorem C1_catalogue_check_values :
    (∀ p ∈ ALLCRCCLASSES, CrccheckBase.calc p checkData none = p.check_result)
    ∧ CrccheckBase.calc Crc32IsoHdlc checkData none = 0xCBF43926
    ∧ CrccheckBase.calc Crc16Xmodem checkData none = 0x31C3
    ∧ CrccheckBase.calc Crc8Smbus checkData none = 0xF4
    ∧ CrccheckBase.calc Crc3Rohc checkData none = 0x6
    ∧ CrccheckBase.calc Crc82Darc checkData none = 0x09ea83f625023801fd612 := by
  exact ⟨by decide, by decide, by decide, by decide, by decide, by decide⟩

/-- C3: for width 8, 16 and 32 and identical parameters, the optimised
fast-path `process` of `Crc8Base`/`Crc16Base`/`Crc32Base` produces the same
register value as the general bit-serial `CrcBase.process` on every input
byte sequence, and hence also the same `final()` result. -/
theorem C3_fast_paths_equal_bit_serial :
    ∀ (poly : Nat) (reflect_input : Bool) (value : Nat) (data : List Nat),
      Crc8Base.process poly reflect_input value data
          = CrcBase.process 8 poly reflect_input value data
      ∧ Crc16Base.process poly reflect_input value data
          = CrcBase.process 16 poly reflect_input value data
      ∧ Crc32Base.process poly reflect_input value data
          = CrcBase.process 32 poly reflect_input value data
      ∧ (∀ (reflect_output : Bool) (xor_output : Nat),
          CrcBase.final 8 reflect_output xor_output
              (Crc8Base.process poly reflect_input value data)
            = CrcBase.final 8 reflect_output xor_output
              (CrcBase.process 8 poly reflect_input value data)
          ∧ CrcBase.final 16 reflect_output xor_output
              (Crc16Base.process poly reflect_input value data)
            = CrcBase.final 16 reflect_output xor_output
              (CrcBase.process 16 poly reflect_input value data)
          ∧ CrcBase.final 32 reflect_output xor_output
              (Crc32Base.process poly reflect_input value data)
            = CrcBase.final 32 reflect_output xor_output
              (CrcBase.process 32 poly reflect_input value data)) := by
  intro poly reflect_input value data
  have h8 : Crc8Base.process poly reflect_input value data
      = CrcBase.process 8 poly reflect_input value data := by
    show crc8Loop poly reflect_input data value = _
    rw [CrcBase.process]
    norm_num [Nat.shiftLeft_eq]
    rw [crc8Loop_eq_crcLoop]
  have h16 : Crc16Base.process poly reflect_input value data
      = CrcBase.process 16 poly reflect_input value data := by
    show crc16Loop poly reflect_input data value = _
    rw [CrcBase.process]
    norm_num [Nat.shiftLeft_eq]
    rw [crc16Loop_eq_crcLoop]
  have h32 : Crc32Base.process poly reflect_input value data
      = CrcBase.process 32 poly reflect_input value data := by
    show crc32Loop poly reflect_input data value = _
    rw [CrcBase.process]
    norm_num [Nat.shiftLeft_eq]
    rw [crc32Loop_eq_crcLoop]
  exact ⟨h8, h16, h32, fun ro xo => ⟨by rw [h8], by rw [h16], by rw [h32]⟩⟩

/-- C4, counterexample: constructing the general `Crc` engine with
`width = 0` and a polynomial `0x4` that does not fit in 0 bits succeeds and
raises nothing, refuting the claim that such a construction raises a
configuration error at construction time. -/
theorem C4_counterexample :
    Crc.initE 0 0x4 0 false false 0 0
      = Except.ok (CrcState.mk (CrcParams.mk 0 0x4 0 false false 0 0) 0) := by
  rfl

/-- C4, amended: the general `Crc` constructor performs no parameter
validation at all — for every width (including 0) and any polynomial,
init value and xor value it succeeds, storing the parameters unchanged —
whereas the general `Checksum` constructor raises exactly when the width is
not a positive multiple of 8. -/
theorem C4_amended_no_crc_validation :
    (∀ (width poly initvalue : Nat) (ri ro : Bool) (xo cr : Nat),
        Crc.initE width poly initvalue ri ro xo cr
          = Except.ok (CrcState.mk
              (CrcParams.mk width poly initvalue ri ro xo cr) initvalue))
    ∧ (∀ (width initvalue : Nat) (bigendian : Bool),
        (∃ msg, Checksum.initE width initvalue bigendian = Except.error msg)
          ↔ (width ≤ 0 ∨ width % 8 ≠ 0)) := by
  constructor
  · intro width poly initvalue ri ro xo cr
    rfl
  · intro width initvalue bigendian
    constructor
    · rintro ⟨msg, h⟩
      by_contra hc
      rw [Checksum.initE, if_neg hc] at h
      exact Except.noConfusion h
    · intro hc
      exact ⟨_, by rw [Checksum.initE, if_pos hc]⟩

/-- C7: evaluation of the code at the failing input.  The instance method
`Crc.calc` ignores its `initvalue` argument: for a `Crc` engine with the
CRC-8/SMBUS parameters (initvalue 0), `calc(data=[], initvalue=0x12)` resets
the register to 0 and returns 0, whereas the classmethod
`CrccheckBase.calc`, which the claim describes, honours the argument and
returns 0x12. -/
theorem C7_crc_calc_ignores_initvalue :
    Crc.calc (CrcState.mk Crc8Smbus 0) [] (some 0x12) = 0x00
    ∧ CrccheckBase.calc Crc8Smbus [] (some 0x12) = 0x12
    ∧ (0x00 : Nat) ≠ 0x12 := by
  exact ⟨by decide, by decide, by decide⟩

/-- C8: `final()` is non-destructive and repeatable, for CRC engines and
checksum engines alike: it leaves the engine state unchanged, two consecutive
calls return the same value, and interposing it before a `process` call does
not change that call's result. -/
theorem C8_final_nondestructive :
    ∀ (s : CrcState) (t : ChecksumState),
      (CrcEngine.finalOp s).2 = s
      ∧ (CrcEngine.finalOp ((CrcEngine.finalOp s).2)).1 = (CrcEngine.finalOp s).1
      ∧ (∀ data, CrcEngine.processOp data ((CrcEngine.finalOp s).2)
            = CrcEngine.processOp data s)
      ∧ (ChecksumEngine.finalOp t).2 = t
      ∧ (ChecksumEngine.finalOp ((ChecksumEngine.finalOp t).2)).1
            = (ChecksumEngine.finalOp t).1
      ∧ (∀ data, ChecksumEngine.processOp data ((ChecksumEngine.finalOp t).2)
            = ChecksumEngine.processOp data t) := by
  intro s t
  exact ⟨rfl, rfl, fun _ => rfl, rfl, rfl, fun _ => rfl⟩

/-- C9, counterexample: `reflectbitorder(0, 2)` returns 1, not 0 — with
`width = 0` the Python slice `[-0:]` keeps the whole binary string, so the
full binary representation of the value is reversed instead of an empty
slice yielding 0. -/
theorem C9_counterexample :
    reflectbitorder 0 2 = 1 ∧ reflectbitorder 0 2 ≠ 0 := by
  exact ⟨by decide, by decide⟩

/-- C9, amended: `reflectbitorder(0, value)` returns 0 only for the sole
value that occupies no bits beyond the low 0 bits, namely `value = 0`; for
any larger value the call reverses the value's entire binary representation
instead. -/
theorem C9_amended_width0 :
    ∀ v : Nat, v < 2 ^ 0 → reflectbitorder 0 v = 0 := by
  intro v hv
  have h0 : v = 0 := Nat.lt_one_iff.mp hv
  subst h0
  decide

/-- C1, witness: the catalogue membership hypothesis discharged at the
CRC-3/ROHC entry. -/
theorem C1_catalogue_check_values_witness :
    Crc3Rohc ∈ ALLCRCCLASSES
    ∧ CrccheckBase.calc Crc3Rohc checkData none = Crc3Rohc.check_result :=
  ⟨by decide, C1_catalogue_check_values.1 Crc3Rohc (by decide)⟩

/-- C9, witness for the amended theorem at `v = 0`. -/
theorem C9_amended_width0_witness :
    (0 : Nat) < 2 ^ 0 ∧ reflectbitorder 0 0 = 0 :=
  ⟨by decide, C9_amended_width0 0 (by decide)⟩

/-! ### Bit reflection (claim C5) -/

/-- Helper: `lsbBitsW w v` always has length `w`. -/
theorem lsbBitsW_length : ∀ (w v : Nat), (lsbBitsW w v).length = w := by
  intro w
  induction w with
  | zero => intro v; rfl
  | succ w ih => intro v; simp [lsbBitsW, ih]

/-- Helper: the low bits of 0 are all zero. -/
theorem lsbBitsW_zero : ∀ w : Nat, lsbBitsW w 0 = List.replicate w false := by
  intro w
  induction w with
  | zero => rfl
  | succ w ih => simp [lsbBitsW, ih, List.replicate_succ]

/-- Helper: appending one digit at the bottom of an MSB-first digit string. -/
theorem ofBitsMSB_concat (l : List Bool) (b : Bool) :
    ofBitsMSB (l ++ [b]) = 2 * ofBitsMSB l + (if b then 1 else 0) := by
  simp [ofBitsMSB, List.foldl_append]

/-- Helper: taking `w` digits of the zero-padded little-endian digit string of
`v` yields exactly the low `w` bits of `v`. -/
theorem take_lsbDigitsAux :
    ∀ (w v fuel m : Nat), v ≤ fuel → w ≤ m →
      (lsbDigitsAux fuel v ++ List.replicate m false).take w = lsbBitsW w v := by
  intro w
  induction w with
  | zero => intro v fuel m _ _; rfl
  | succ w ih =>
      intro v fuel m hvf hwm
      match v, fuel with
      | 0, fuel =>
          have h0 : lsbDigitsAux fuel 0 = [] := by cases fuel <;> rfl
          rw [h0, List.nil_append, List.take_replicate, lsbBitsW_zero]
          congr 1
          omega
      | v + 1, fuel + 1 =>
          have hdiv : (v + 1) / 2 ≤ fuel := by
            have := Nat.div_lt_self (Nat.succ_pos v) (by omega : 1 < 2)
            omega
          simp only [lsbDigitsAux, List.cons_append, List.take_succ_cons,
            lsbBitsW]
          rw [ih ((v + 1) / 2) fuel m hdiv (by omega)]

/-- Helper: for positive width, `reflectbitorder` computes the value of the
reversed low-bit string. -/
theorem reflectbitorder_eq_ofBitsMSB (w v : Nat) (hw : 1 ≤ w) :
    reflectbitorder w v = ofBitsMSB (lsbBitsW w v) := by
  rw [reflectbitorder]
  have hw0 : w ≠ 0 := by omega
  simp only [hw0, if_false]
  rw [List.reverse_drop]
  have hlen : w ≤ (List.replicate w false ++ binDigits v).length := by
    simp [List.length_append]
  have hsub : (List.replicate w false ++ binDigits v).length -
      ((List.replicate w false ++ binDigits v).length - w) = w := by omega
  rw [hsub, List.reverse_append, List.reverse_replicate]
  congr 1
  by_cases hv : v = 0
  · subst hv
    have h1 : (binDigits 0).reverse = [false] := rfl
    rw [h1]
    have h2 : ([false] ++ List.replicate w false) = List.replicate (w + 1) false := by
      simp [List.replicate_succ]
    rw [h2, List.take_replicate, lsbBitsW_zero]
    congr 1
    omega
  · rw [binDigits, if_neg hv, List.reverse_reverse]
    show (lsbDigitsAux v v ++ List.replicate w false).take w = _
    exact take_lsbDigitsAux w v v w (Nat.le_refl v) (Nat.le_refl w)

/-- Helper: reading back the digits of a parsed MSB-first digit string gives
the reversed string. -/
theorem lsbBitsW_ofBitsMSB (l : List Bool) :
    lsbBitsW l.length (ofBitsMSB l) = l.reverse := by
  induction l using List.reverseRecOn with
  | nil => rfl
  | append_singleton l b ih =>
      rw [ofBitsMSB_concat, List.length_append, List.length_singleton,
        List.reverse_concat]
      show lsbBitsW (l.length + 1) _ = _
      rw [lsbBitsW]
      have hmod : (2 * ofBitsMSB l + (if b then 1 else 0)) % 2 = (if b then 1 else 0) := by
        cases b <;> simp <;> omega
      have hdiv : (2 * ofBitsMSB l + (if b then 1 else 0)) / 2 = ofBitsMSB l := by
        cases b <;> simp <;> omega
      rw [hmod, hdiv, ih]
      cases b <;> rfl

/-- Helper: parsing the reversed low-bit string of an in-range value
reconstructs the value. -/
theorem ofBitsMSB_reverse_lsbBitsW :
    ∀ (w v : Nat), v < 2 ^ w → ofBitsMSB ((lsbBitsW w v).reverse) = v := by
  intro w
  induction w with
  | zero =>
      intro v hv
      have : v = 0 := by simpa using hv
      subst this
      rfl
  | succ w ih =>
      intro v hv
      rw [lsbBitsW]
      show ofBitsMSB (((v % 2 == 1) :: lsbBitsW w (v / 2)).reverse) = v
      rw [List.reverse_cons, ofBitsMSB_concat]
      have hdiv : v / 2 < 2 ^ w := by
        rw [pow_succ] at hv
        exact Nat.div_lt_of_lt_mul (by omega)
      rw [ih (v / 2) hdiv]
      have h2 : (if (v % 2 == 1) then 1 else 0) = v % 2 := by
        rcases Nat.mod_two_eq_zero_or_one v with h | h <;> rw [h] <;> rfl
      rw [h2]
      omega

/-- C5: bit reflection is an involution: for every width from 1 to 125 and
every value representable in that width,
`reflectbitorder width (reflectbitorder width value) = value`. -/
theorem C5_reflectbitorder_involution :
    ∀ (width value : Nat), 1 ≤ width → width ≤ 125 → value < 2 ^ width →
      reflectbitorder width (reflectbitorder width value) = value := by
  intro w v hw _ hv
  rw [reflectbitorder_eq_ofBitsMSB w v hw,
    reflectbitorder_eq_ofBitsMSB w _ hw]
  have h2 : lsbBitsW w (ofBitsMSB (lsbBitsW w v)) = (lsbBitsW w v).reverse := by
    have hl := lsbBitsW_ofBitsMSB (lsbBitsW w v)
    rw [lsbBitsW_length] at hl
    exact hl
  rw [h2]
  exact ofBitsMSB_reverse_lsbBitsW w v hv

/-- C5, witness at width 8, value 0x35. -/
theorem C5_reflectbitorder_involution_witness :
    (1 ≤ 8 ∧ 8 ≤ 125 ∧ 0x35 < 2 ^ 8)
    ∧ reflectbitorder 8 (reflectbitorder 8 0x35) = 0x35 :=
  ⟨⟨by decide, by decide, by decide⟩,
    C5_reflectbitorder_involution 8 0x35 (by decide) (by decide) (by decide)⟩

/-! ### Register bounds and chunked processing (claims C10, C2) -/

/-- Helper: the per-byte masking keeps the working register at or below the
mask, whatever the data. -/
theorem crcLoop_le_mask (mask highbit poly shift : Nat) (r : Bool) :
    ∀ (data : List Nat) (crc : Nat), crc ≤ mask →
      crcLoop mask highbit poly shift r data crc ≤ mask := by
  intro data
  induction data with
  | nil => intro crc h; exact h
  | cons b rest ih =>
      intro crc h
      simp only [crcLoop]
      exact ih _ Nat.and_le_right

/-- C10: width-boundedness is an invariant of the bit-serial engine: for
every width of at least 1, a polynomial fitting in the width and a register
value in range, `CrcBase.process` returns a register value again in
`[0, 2^width)` — including for widths below 8, where the temporary left-shift
enlargement is fully undone before the value is stored back. -/
theorem C10_process_register_in_range :
    ∀ (width poly : Nat) (reflect_input : Bool) (value : Nat) (data : List Nat),
      1 ≤ width → poly < 2 ^ width → value < 2 ^ width →
      CrcBase.process width poly reflect_input value data < 2 ^ width := by
  intro width poly r v data hw _ hv
  rw [CrcBase.process]
  by_cases h : width < 8
  · rw [if_pos h]
    have hd : 8 - width ≤ 8 := by omega
    have hpow : 2 ^ width * 2 ^ (8 - width) = 2 ^ 8 := by
      rw [← pow_add]
      congr 1
      omega
    have hstart : v <<< (8 - width) ≤ 0xFF := by
      rw [Nat.shiftLeft_eq]
      have : v * 2 ^ (8 - width) < 2 ^ width * 2 ^ (8 - width) := by
        apply Nat.mul_lt_mul_of_lt_of_le hv (Nat.le_refl _)
        exact Nat.pos_pow_of_pos _ (by omega)
      omega
    have hr : crcLoop 0xFF 0x80 (poly <<< (8 - width)) 0 r data (v <<< (8 - width)) ≤ 0xFF :=
      crcLoop_le_mask _ _ _ _ r data _ hstart
    rw [Nat.shiftRight_eq_div_pow]
    have : crcLoop 0xFF 0x80 (poly <<< (8 - width)) 0 r data (v <<< (8 - width)) < 2 ^ 8 := by
      omega
    rw [Nat.div_lt_iff_lt_mul (Nat.pos_pow_of_pos _ (by omega))]
    omega
  · rw [if_neg h]
    have hmask : (1 <<< width) - 1 = 2 ^ width - 1 := by
      rw [Nat.shiftLeft_eq, one_mul]
    rw [hmask]
    have hpos : 1 ≤ 2 ^ width := Nat.one_le_two_pow
    have hv1 : v ≤ 2 ^ width - 1 := by omega
    have := crcLoop_le_mask (2 ^ width - 1) (1 <<< (width - 1)) poly
      (width - 8) r data v hv1
    omega

/-- C10, witness at width 3 (CRC-3-style parameters). -/
theorem C10_process_register_in_range_witness :
    (1 ≤ 3 ∧ (3 : Nat) < 2 ^ 3 ∧ (5 : Nat) < 2 ^ 3)
    ∧ CrcBase.process 3 3 true 5 [0x31, 0x32] < 2 ^ 3 :=
  ⟨⟨by decide, by decide, by decide⟩,
    C10_process_register_in_range 3 3 true 5 [0x31, 0x32]
      (by decide) (by decide) (by decide)⟩

/-- Helper: `crcLoop` over concatenated data is `crcLoop` run in sequence. -/
theorem crcLoop_append (mask highbit poly shift : Nat) (r : Bool) :
    ∀ (xs ys : List Nat) (crc : Nat),
      crcLoop mask highbit poly shift r (xs ++ ys) crc
        = crcLoop mask highbit poly shift r ys
            (crcLoop mask highbit poly shift r xs crc) := by
  intro xs
  induction xs with
  | nil => intro ys crc; rfl
  | cons b rest ih =>
      intro ys crc
      simp only [List.cons_append, crcLoop]
      exact ih ys _

/-- Helper: the low bits of an XOR vanish when they vanish on both sides. -/
theorem pow_two_dvd_xor {j a b : Nat} (ha : 2 ^ j ∣ a) (hb : 2 ^ j ∣ b) :
    2 ^ j ∣ (a ^^^ b) := by
  rw [Nat.dvd_iff_mod_eq_zero] at ha hb ⊢
  rw [← Nat.and_pow_two_sub_one_eq_mod] at ha hb ⊢
  rw [Nat.and_xor_distrib_right, ha, hb]
  rfl

/-- Helper: a single left shift adds one low zero bit. -/
theorem pow_two_dvd_shiftLeft_one {j x : Nat} (hx : 2 ^ j ∣ x) :
    2 ^ (j + 1) ∣ x <<< 1 := by
  rw [Nat.shiftLeft_eq, pow_succ, pow_one]
  exact Nat.mul_dvd_mul hx (Nat.dvd_refl 2)

/-- Helper: masking with `0xFF` preserves divisibility by `2^d` for `d ≤ 8`. -/
theorem pow_two_dvd_and_0xFF {d x : Nat} (hd : d ≤ 8) (hx : 2 ^ d ∣ x) :
    2 ^ d ∣ (x &&& 0xFF) := by
  have h255 : (0xFF : Nat) = 2 ^ 8 - 1 := by norm_num
  rw [h255, Nat.and_pow_two_sub_one_eq_mod]
  rw [Nat.dvd_mod_iff (pow_dvd_pow 2 hd)]
  exact hx

/-- Helper: the eight shift steps only ever add low zero bits, as long as the
working polynomial has `d` low zero bits: starting from `j ≤ d` known zero
bits, `n` steps reach `min d (j + n)` zero bits. -/
theorem crcShiftLoop_dvd (d highbit poly : Nat) (hp : 2 ^ d ∣ poly) :
    ∀ (n x j : Nat), j ≤ d → 2 ^ j ∣ x →
      2 ^ (min d (j + n)) ∣ crcShiftLoop highbit poly n x := by
  intro n
  induction n with
  | zero =>
      intro x j hj hx
      have : min d (j + 0) = j := by omega
      rw [this]
      exact hx
  | succ n ih =>
      intro x j hj hx
      show 2 ^ (min d (j + (n + 1))) ∣ crcShiftLoop highbit poly n _
      have hstep : 2 ^ (min d (j + 1)) ∣
          (if x &&& highbit != 0 then (x <<< 1) ^^^ poly else x <<< 1) := by
        have hx1 : 2 ^ (j + 1) ∣ x <<< 1 := pow_two_dvd_shiftLeft_one hx
        have hx2 : 2 ^ (min d (j + 1)) ∣ x <<< 1 :=
          dvd_trans (pow_dvd_pow 2 (Nat.min_le_right d (j + 1))) hx1
        have hp2 : 2 ^ (min d (j + 1)) ∣ poly :=
          dvd_trans (pow_dvd_pow 2 (Nat.min_le_left d (j + 1))) hp
        split
        · exact pow_two_dvd_xor hx2 hp2
        · exact hx2
      have hrec := ih _ (min d (j + 1)) (Nat.min_le_left d (j + 1)) hstep
      exact dvd_trans
        (pow_dvd_pow 2 (by omega : min d (j + (n + 1)) ≤ min d (min d (j + 1) + n)))
        hrec

/-- Helper: in the enlarged sub-byte-width mode, if the register starts with
`d ≤ 8` low zero bits, it keeps them through any amount of data. -/
theorem crcLoop_0xFF_dvd (d poly : Nat) (hd : d ≤ 8) (hp : 2 ^ d ∣ poly)
    (r : Bool) :
    ∀ (data : List Nat) (crc : Nat), 2 ^ d ∣ crc →
      2 ^ d ∣ crcLoop 0xFF 0x80 poly 0 r data crc := by
  intro data
  induction data with
  | nil => intro crc hc; exact hc
  | cons b rest ih =>
      intro crc hc
      simp only [crcLoop]
      apply ih
      apply pow_two_dvd_and_0xFF hd
      have hmin : d = min d (0 + 8) := by omega
      rw [hmin]
      exact crcShiftLoop_dvd d 0x80 poly hp 8 _ 0 (Nat.zero_le d) (one_dvd _)

/-- Helper: `CrcBase.process` composes over concatenation for every positive
width — the heart of incremental feeding.  For widths below 8 the temporary
enlargement is re-applied losslessly on the second call because the stored
register always has `8 - width` low zero bits. -/
theorem crcProcess_append (width poly : Nat) (r : Bool) (hw : 1 ≤ width) :
    ∀ (v : Nat) (c1 c2 : List Nat),
      CrcBase.process width poly r v (c1 ++ c2)
        = CrcBase.process width poly r (CrcBase.process width poly r v c1) c2 := by
  intro v c1 c2
  by_cases h : width < 8
  · simp only [CrcBase.process, if_pos h]
    rw [crcLoop_append]
    have hd8 : 8 - width ≤ 8 := by omega
    have hpolydvd : 2 ^ (8 - width) ∣ poly <<< (8 - width) := by
      rw [Nat.shiftLeft_eq]
      exact dvd_mul_left (2 ^ (8 - width)) poly
    have hvdvd : 2 ^ (8 - width) ∣ v <<< (8 - width) := by
      rw [Nat.shiftLeft_eq]
      exact dvd_mul_left (2 ^ (8 - width)) v
    have hL : 2 ^ (8 - width) ∣
        crcLoop 0xFF 0x80 (poly <<< (8 - width)) 0 r c1 (v <<< (8 - width)) :=
      crcLoop_0xFF_dvd (8 - width) _ hd8 hpolydvd r c1 _ hvdvd
    have hroundtrip :
        (crcLoop 0xFF 0x80 (poly <<< (8 - width)) 0 r c1 (v <<< (8 - width))
          >>> (8 - width)) <<< (8 - width)
        = crcLoop 0xFF 0x80 (poly <<< (8 - width)) 0 r c1 (v <<< (8 - width)) := by
      rw [Nat.shiftRight_eq_div_pow, Nat.shiftLeft_eq]
      exact Nat.div_mul_cancel hL
    rw [hroundtrip]
  · simp only [CrcBase.process, if_neg h]
    exact crcLoop_append _ _ _ _ r c1 c2 v

/-! ### Checksum word grouping (claims C6, C2) -/

/-- Helper: incrementing a length splits into the word-completing case and
the word-extending case, with the matching mod and div values. -/
theorem succ_mod_div_cases (len k : Nat) (hk : 1 ≤ k) :
    (len % k = k - 1 ∧ (len + 1) % k = 0 ∧ (len + 1) / k = len / k + 1)
    ∨ (len % k + 1 < k ∧ (len + 1) % k = len % k + 1
        ∧ (len + 1) / k = len / k) := by
  have hm : len % k < k := Nat.mod_lt _ hk
  have hrep : k * (len / k) + len % k = len := Nat.div_add_mod len k
  by_cases h : len % k = k - 1
  · left
    have h1 : len + 1 = k * (len / k) + k := by omega
    refine ⟨h, ?_, ?_⟩
    · rw [h1, Nat.add_mod_right, Nat.mul_mod_right]
    · rw [h1, ← Nat.mul_succ, Nat.mul_div_cancel_left _ (by omega : 0 < k)]
  · right
    have hlt : len % k + 1 < k := by omega
    have h1 : len + 1 = k * (len / k) + (len % k + 1) := by omega
    refine ⟨hlt, ?_, ?_⟩
    · rw [h1, Nat.mul_add_mod, Nat.mod_eq_of_lt hlt]
    · rw [h1, Nat.mul_add_div (by omega : 0 < k), Nat.div_eq_of_lt hlt]
      omega

/-- Helper: a loop state with empty current word is determined by its
accumulator. -/
theorem CkLoopState.eq_mk_value (s : CkLoopState) (h1 : s.dataword = 0)
    (h2 : s.n = 0) : s = CkLoopState.mk 0 0 s.value := by
  cases s
  simp_all

/-- Helper: after the additive checksum loop, `n` always equals eight times
the number of bytes of the trailing incomplete word, and `dataword` is empty
whenever the data length is word aligned. -/
theorem ckFold_n_dw (k : Nat) (hk : 1 ≤ k) (be : Bool) (mask v : Nat) :
    ∀ data : List Nat,
      ((data.foldl (ckStep be (8 * k) mask) (CkLoopState.mk 0 0 v)).n
          = 8 * (data.length % k))
      ∧ (data.length % k = 0 →
          (data.foldl (ckStep be (8 * k) mask) (CkLoopState.mk 0 0 v)).dataword
            = 0) := by
  intro data
  induction data using List.reverseRecOn with
  | nil =>
      refine ⟨by simp, fun _ => by simp⟩
  | append_singleton l b ih =>
      obtain ⟨ihn, ihdw⟩ := ih
      have hlen : (l ++ [b]).length = l.length + 1 := by simp
      rw [List.foldl_append, List.foldl_cons, List.foldl_nil, hlen]
      rcases succ_mod_div_cases l.length k hk with ⟨h1, h2, _⟩ | ⟨h1, h2, _⟩
      · have hfull : (l.foldl (ckStep be (8 * k) mask)
            (CkLoopState.mk 0 0 v)).n + 8 = 8 * k := by
          rw [ihn, h1]; omega
        constructor
        · simp only [ckStep]
          rw [if_pos hfull, h2]
        · intro _
          simp only [ckStep]
          rw [if_pos hfull]
      · have hnotfull : ¬((l.foldl (ckStep be (8 * k) mask)
            (CkLoopState.mk 0 0 v)).n + 8 = 8 * k) := by
          rw [ihn]; omega
        constructor
        · simp only [ckStep]
          rw [if_neg hnotfull, ihn, h2]
          show 8 * (l.length % k) + 8 = 8 * (l.length % k + 1)
          omega
        · intro hcontra
          rw [h2] at hcontra
          omega

/-- Helper: the accumulator after the additive checksum loop depends only on
the complete words of the data: trailing bytes that do not fill a word are
dropped. -/
theorem ckFold_value_take (k : Nat) (hk : 1 ≤ k) (be : Bool) (mask v : Nat) :
    ∀ data : List Nat,
      (data.foldl (ckStep be (8 * k) mask) (CkLoopState.mk 0 0 v)).value
        = ((data.take (k * (data.length / k))).foldl
            (ckStep be (8 * k) mask) (CkLoopState.mk 0 0 v)).value := by
  intro data
  induction data using List.reverseRecOn with
  | nil => simp
  | append_singleton l b ih =>
      have hlen : (l ++ [b]).length = l.length + 1 := by simp
      rcases succ_mod_div_cases l.length k hk with ⟨h1, h2, h3⟩ | ⟨h1, h2, h3⟩
      · have htake : (l ++ [b]).take (k * ((l ++ [b]).length / k)) = l ++ [b] := by
          apply List.take_of_length_le
          rw [hlen, h3, Nat.mul_succ]
          have hrep : k * (l.length / k) + l.length % k = l.length :=
            Nat.div_add_mod l.length k
          omega
        rw [htake]
      · have htake : (l ++ [b]).take (k * ((l ++ [b]).length / k))
            = l.take (k * (l.length / k)) := by
          rw [hlen, h3]
          exact List.take_append_of_le_length
            (by rw [Nat.mul_comm]; exact Nat.div_mul_le_self l.length k)
        rw [htake, ← ih, List.foldl_append, List.foldl_cons, List.foldl_nil]
        have hn := (ckFold_n_dw k hk be mask v l).1
        simp only [ckStep]
        rw [if_neg (by rw [hn]; omega)]

/-- Helper: over a word-aligned first chunk, the additive checksum loop ends
in the clean state `(0, 0, value)`, so processing composes. -/
theorem ckProcess_append_aligned (k mask : Nat) (be : Bool) (hk : 1 ≤ k) :
    ∀ (v : Nat) (c1 c2 : List Nat), k ∣ c1.length →
      ChecksumBase.process (8 * k) mask be v (c1 ++ c2)
        = ChecksumBase.process (8 * k) mask be
            (ChecksumBase.process (8 * k) mask be v c1) c2 := by
  intro v c1 c2 hdvd
  rw [ChecksumBase.process, ChecksumBase.process, ChecksumBase.process,
    List.foldl_append]
  have hmod : c1.length % k = 0 := Nat.mod_eq_zero_of_dvd hdvd
  have h := ckFold_n_dw k hk be mask v c1
  have hn : (c1.foldl (ckStep be (8 * k) mask) (CkLoopState.mk 0 0 v)).n = 0 := by
    rw [h.1, hmod]
  have hdw : (c1.foldl (ckStep be (8 * k) mask)
      (CkLoopState.mk 0 0 v)).dataword = 0 := h.2 hmod
  rw [CkLoopState.eq_mk_value _ hdw hn]

/-- Helper: after the XOR checksum loop, `n` always equals eight times the
number of bytes of the trailing incomplete word, and `dataword` is empty
whenever the data length is word aligned. -/
theorem ckXorFold_n_dw (k : Nat) (hk : 1 ≤ k) (be : Bool) (mask v : Nat) :
    ∀ data : List Nat,
      ((data.foldl (ckXorStep be (8 * k) mask) (CkLoopState.mk 0 0 v)).n
          = 8 * (data.length % k))
      ∧ (data.length % k = 0 →
          (data.foldl (ckXorStep be (8 * k) mask) (CkLoopState.mk 0 0 v)).dataword
            = 0) := by
  intro data
  induction data using List.reverseRecOn with
  | nil =>
      refine ⟨by simp, fun _ => by simp⟩
  | append_singleton l b ih =>
      obtain ⟨ihn, ihdw⟩ := ih
      have hlen : (l ++ [b]).length = l.length + 1 := by simp
      rw [List.foldl_append, List.foldl_cons, List.foldl_nil, hlen]
      rcases succ_mod_div_cases l.length k hk with ⟨h1, h2, _⟩ | ⟨h1, h2, _⟩
      · have hfull : (l.foldl (ckXorStep be (8 * k) mask)
            (CkLoopState.mk 0 0 v)).n + 8 = 8 * k := by
          rw [ihn, h1]; omega
        constructor
        · simp only [ckXorStep]
          rw [if_pos hfull, h2]
        · intro _
          simp only [ckXorStep]
          rw [if_pos hfull]
      · have hnotfull : ¬((l.foldl (ckXorStep be (8 * k) mask)
            (CkLoopState.mk 0 0 v)).n + 8 = 8 * k) := by
          rw [ihn]; omega
        constructor
        · simp only [ckXorStep]
          rw [if_neg hnotfull, ihn, h2]
          show 8 * (l.length % k) + 8 = 8 * (l.length % k + 1)
          omega
        · intro hcontra
          rw [h2] at hcontra
          omega

/-- Helper: the accumulator after the XOR checksum loop depends only on the
complete words of the data. -/
theorem ckXorFold_value_take (k : Nat) (hk : 1 ≤ k) (be : Bool) (mask v : Nat) :
    ∀ data : List Nat,
      (data.foldl (ckXorStep be (8 * k) mask) (CkLoopState.mk 0 0 v)).value
        = ((data.take (k * (data.length / k))).foldl
            (ckXorStep be (8 * k) mask) (CkLoopState.mk 0 0 v)).value := by
  intro data
  induction data using List.reverseRecOn with
  | nil => simp
  | append_singleton l b ih =>
      have hlen : (l ++ [b]).length = l.length + 1 := by simp
      rcases succ_mod_div_cases l.length k hk with ⟨h1, h2, h3⟩ | ⟨h1, h2, h3⟩
      · have htake : (l ++ [b]).take (k * ((l ++ [b]).length / k)) = l ++ [b] := by
          apply List.take_of_length_le
          rw [hlen, h3, Nat.mul_succ]
          have hrep : k * (l.length / k) + l.length % k = l.length :=
            Nat.div_add_mod l.length k
          omega
        rw [htake]
      · have htake : (l ++ [b]).take (k * ((l ++ [b]).length / k))
            = l.take (k * (l.length / k)) := by
          rw [hlen, h3]
          exact List.take_append_of_le_length
            (by rw [Nat.mul_comm]; exact Nat.div_mul_le_self l.length k)
        rw [htake, ← ih, List.foldl_append, List.foldl_cons, List.foldl_nil]
        have hn := (ckXorFold_n_dw k hk be mask v l).1
        simp only [ckXorStep]
        rw [if_neg (by rw [hn]; omega)]

/-- Helper: over a word-aligned first chunk, the XOR checksum loop ends in
the clean state `(0, 0, value)`, so processing composes. -/
theorem ckXorProcess_append_aligned (k mask : Nat) (be : Bool) (hk : 1 ≤ k) :
    ∀ (v : Nat) (c1 c2 : List Nat), k ∣ c1.length →
      ChecksumXorBase.process (8 * k) mask be v (c1 ++ c2)
        = ChecksumXorBase.process (8 * k) mask be
            (ChecksumXorBase.process (8 * k) mask be v c1) c2 := by
  intro v c1 c2 hdvd
  rw [ChecksumXorBase.process, ChecksumXorBase.process, ChecksumXorBase.process,
    List.foldl_append]
  have hmod : c1.length % k = 0 := Nat.mod_eq_zero_of_dvd hdvd
  have h := ckXorFold_n_dw k hk be mask v c1
  have hn : (c1.foldl (ckXorStep be (8 * k) mask)
      (CkLoopState.mk 0 0 v)).n = 0 := by
    rw [h.1, hmod]
  have hdw : (c1.foldl (ckXorStep be (8 * k) mask)
      (CkLoopState.mk 0 0 v)).dataword = 0 := h.2 hmod
  rw [CkLoopState.eq_mk_value _ hdw hn]

/-- C6: each `process` call on an additive or XOR checksum engine folds in
only the complete `width/8`-byte words of that call's data; the trailing
bytes are dropped and are not carried over to a later `process` call, and in
particular a one-shot `Checksum32.calc` over `n` bytes equals the one over
only the first `4 * (n / 4)` bytes. -/
theorem C6_checksum_trailing_bytes_dropped :
    (∀ (k mask : Nat) (be : Bool) (v : Nat) (data : List Nat), 1 ≤ k →
        ChecksumBase.process (8 * k) mask be v data
          = ChecksumBase.process (8 * k) mask be v
              (data.take (k * (data.length / k))))
    ∧ (∀ (k mask : Nat) (be : Bool) (v : Nat) (data : List Nat), 1 ≤ k →
        ChecksumXorBase.process (8 * k) mask be v data
          = ChecksumXorBase.process (8 * k) mask be v
              (data.take (k * (data.length / k))))
    ∧ (∀ data : List Nat,
        Checksum32.calc data = Checksum32.calc (data.take (4 * (data.length / 4))))
    ∧ (∀ (k mask : Nat) (be : Bool) (v : Nat) (c1 c2 : List Nat), 1 ≤ k →
        ChecksumBase.process (8 * k) mask be
            (ChecksumBase.process (8 * k) mask be v c1) c2
          = ChecksumBase.process (8 * k) mask be
              (ChecksumBase.process (8 * k) mask be v
                (c1.take (k * (c1.length / k)))) c2) := by
  have hbase : ∀ (k mask : Nat) (be : Bool) (v : Nat) (data : List Nat), 1 ≤ k →
      ChecksumBase.process (8 * k) mask be v data
        = ChecksumBase.process (8 * k) mask be v
            (data.take (k * (data.length / k))) := by
    intro k mask be v data hk
    rw [ChecksumBase.process, ChecksumBase.process]
    exact ckFold_value_take k hk be mask v data
  refine ⟨hbase, ?_, ?_, ?_⟩
  · intro k mask be v data hk
    rw [ChecksumXorBase.process, ChecksumXorBase.process]
    exact ckXorFold_value_take k hk be mask v data
  · intro data
    rw [Checksum32.calc, Checksum32.calc,
      show (32 : Nat) = 8 * 4 from by norm_num]
    exact hbase 4 0xFFFFFFFF true 0 data (by norm_num)
  · intro k mask be v c1 c2 hk
    rw [hbase k mask be v c1 hk]

/-- C6, witness: a 3-byte input to a 16-bit additive checksum is processed
only through its first 2 bytes. -/
theorem C6_checksum_trailing_bytes_dropped_witness :
    ChecksumBase.process (8 * 2) 0xFFFF true 5 [1, 2, 3]
      = ChecksumBase.process (8 * 2) 0xFFFF true 5
          ([1, 2, 3].take (2 * (([1, 2, 3] : List Nat).length / 2))) :=
  C6_checksum_trailing_bytes_dropped.1 2 0xFFFF true 5 [1, 2, 3] (by decide)

/-- C2, counterexample: for the 16-bit additive checksum engine (width 16,
mask 0xFFFF, big endian, initial value 0), splitting the two-byte input
`[1, 2]` into the chunks `[1]` and `[2]` and feeding them through successive
`process` calls gives 0, while one `process` call over the whole data gives
0x0102 — so the claimed associativity fails for the checksum engines. -/
theorem C2_counterexample :
    ([[1], [2]] : List (List Nat)).foldl
        (fun s c => ChecksumBase.process 16 0xFFFF true s c) 0
      ≠ ChecksumBase.process 16 0xFFFF true 0
          ([[1], [2]] : List (List Nat)).flatten := by
  decide

/-- C2, amended: incremental feeding agrees with one-shot processing for
every CRC engine of positive width, over every way of splitting the data
into chunks (both at the register level and after `final`); for the additive
and XOR checksum engines it agrees whenever every chunk's length is a
multiple of the word size `width/8` (and fails otherwise, see the
counterexample). -/
theorem C2_amended_incremental_feeding :
    (∀ (width poly : Nat) (rf : Bool) (v : Nat) (chunks : List (List Nat)),
        1 ≤ width →
        CrcBase.process width poly rf v chunks.flatten
          = chunks.foldl (fun s c => CrcBase.process width poly rf s c) v)
    ∧ (∀ (width poly : Nat) (rf ro : Bool) (xo v : Nat)
          (chunks : List (List Nat)), 1 ≤ width →
        CrcBase.final width ro xo (CrcBase.process width poly rf v chunks.flatten)
          = CrcBase.final width ro xo
              (chunks.foldl (fun s c => CrcBase.process width poly rf s c) v))
    ∧ (∀ (k mask : Nat) (be : Bool) (v : Nat) (chunks : List (List Nat)),
        1 ≤ k → (∀ c ∈ chunks, k ∣ c.length) →
        ChecksumBase.process (8 * k) mask be v chunks.flatten
          = chunks.foldl (fun s c => ChecksumBase.process (8 * k) mask be s c) v)
    ∧ (∀ (k mask : Nat) (be : Bool) (v : Nat) (chunks : List (List Nat)),
        1 ≤ k → (∀ c ∈ chunks, k ∣ c.length) →
        ChecksumXorBase.process (8 * k) mask be v chunks.flatten
          = chunks.foldl
              (fun s c => ChecksumXorBase.process (8 * k) mask be s c) v) := by
  have hnil : ∀ (width poly : Nat) (rf : Bool) (v : Nat),
      CrcBase.process width poly rf v [] = v := by
    intro width poly rf v
    rw [CrcBase.process]
    by_cases h : width < 8
    · rw [if_pos h]
      show (v <<< (8 - width)) >>> (8 - width) = v
      rw [Nat.shiftLeft_eq, Nat.shiftRight_eq_div_pow]
      exact Nat.mul_div_cancel v (Nat.pos_pow_of_pos _ (by omega))
    · rw [if_neg h]
      rfl
  have hcrc : ∀ (width poly : Nat) (rf : Bool) (chunks : List (List Nat))
      (v : Nat), 1 ≤ width →
      CrcBase.process width poly rf v chunks.flatten
        = chunks.foldl (fun s c => CrcBase.process width poly rf s c) v := by
    intro width poly rf chunks
    induction chunks with
    | nil => intro v _; exact hnil width poly rf v
    | cons c cs ih =>
        intro v hw
        rw [List.flatten_cons, List.foldl_cons,
          crcProcess_append width poly rf hw v c cs.flatten]
        exact ih _ hw
  have hck : ∀ (k mask : Nat) (be : Bool) (chunks : List (List Nat)) (v : Nat),
      1 ≤ k → (∀ c ∈ chunks, k ∣ c.length) →
      ChecksumBase.process (8 * k) mask be v chunks.flatten
        = chunks.foldl (fun s c => ChecksumBase.process (8 * k) mask be s c) v := by
    intro k mask be chunks
    induction chunks with
    | nil => intro v _ _; rfl
    | cons c cs ih =>
        intro v hk hmem
        rw [List.flatten_cons, List.foldl_cons,
          ckProcess_append_aligned k mask be hk v c cs.flatten
            (hmem c (List.mem_cons_self c cs))]
        exact ih _ hk (fun d hd => hmem d (List.mem_cons_of_mem c hd))
  have hckx : ∀ (k mask : Nat) (be : Bool) (chunks : List (List Nat)) (v : Nat),
      1 ≤ k → (∀ c ∈ chunks, k ∣ c.length) →
      ChecksumXorBase.process (8 * k) mask be v chunks.flatten
        = chunks.foldl
            (fun s c => ChecksumXorBase.process (8 * k) mask be s c) v := by
    intro k mask be chunks
    induction chunks with
    | nil => intro v _ _; rfl
    | cons c cs ih =>
        intro v hk hmem
        rw [List.flatten_cons, List.foldl_cons,
          ckXorProcess_append_aligned k mask be hk v c cs.flatten
            (hmem c (List.mem_cons_self c cs))]
        exact ih _ hk (fun d hd => hmem d (List.mem_cons_of_mem c hd))
  refine ⟨fun width poly rf v chunks hw => hcrc width poly rf chunks v hw,
    ?_,
    fun k mask be v chunks hk hmem => hck k mask be chunks v hk hmem,
    fun k mask be v chunks hk hmem => hckx k mask be chunks v hk hmem⟩
  intro width poly rf ro xo v chunks hw
  rw [hcrc width poly rf chunks v hw]

/-- C2, witness: a concrete chunked CRC-3-style computation and a concrete
word-aligned chunked 16-bit checksum computation, both agreeing with the
one-shot result. -/
theorem C2_amended_incremental_feeding_witness :
    (CrcBase.process 3 3 true 7 ([[0x31], [0x32, 0x33]] : List (List Nat)).flatten
      = ([[0x31], [0x32, 0x33]] : List (List Nat)).foldl
          (fun s c => CrcBase.process 3 3 true s c) 7)
    ∧ (ChecksumBase.process (8 * 2) 0xFFFF true 5
          ([[1, 2], [3, 4]] : List (List Nat)).flatten
      = ([[1, 2], [3, 4]] : List (List Nat)).foldl
          (fun s c => ChecksumBase.process (8 * 2) 0xFFFF true s c) 5) :=
  ⟨C2_amended_incremental_feeding.1 3 3 true 7 [[0x31], [0x32, 0x33]]
      (by decide),
    C2_amended_incremental_feeding.2.2.1 2 0xFFFF true 5 [[1, 2], [3, 4]]
      (by decide) (by decide)⟩

end Crccheck
